import Mathlib

/-!
Verification of the filler-aware interruption handler
(src/livekit_agents_extensions/filler_interrupt_handler.py) and the session
wiring in src/examples/other/transcription/multi-user-transcriber.py.

The Python code is shallowly embedded: float confidences become rationals,
Python sets of words become lists compared by membership, the callback
registry becomes explicit lists, and the asyncio coroutines are modelled by
pure state-passing functions (plus an explicit interleaving semantics for
the concurrency property).
-/

namespace FillerInterrupt

/-! ## Tokenizer / normalizer

The source builds a regex that keeps word characters and apostrophe
characters and replaces every run of other characters by a single space;
word characters are modelled as ASCII alphanumerics plus underscore
(character 95); character 39 is the apostrophe character.
-/

/-- Characters kept by the token regex of the source (its character class is
the complement of word characters and the apostrophe character). -/
def keepChar (c : Char) : Bool :=
  c.isAlphanum || c == Char.ofNat 95 || c == Char.ofNat 39

/-- Auxiliary scanner: returns the run of characters satisfying p that ends
at the front of the list, together with the completed runs further right. -/
def runsAux (p : Char → Bool) : List Char → (List Char × List (List Char))
  | [] => ([], [])
  | c :: cs =>
    let r := runsAux p cs
    if p c then (c :: r.1, r.2)
    else ([], if r.1 = [] then r.2 else r.1 :: r.2)

/-- Maximal runs of characters satisfying p, left to right, empty runs
dropped. -/
def runs (p : Char → Bool) (cs : List Char) : List (List Char) :=
  let r := runsAux p cs
  if r.1 = [] then r.2 else r.1 :: r.2

/-- Join character runs with single spaces, as the regex substitution plus
strip leaves the text. -/
def joinSpace : List (List Char) → List Char
  | [] => []
  | [r] => r
  | r :: rs => r ++ Char.ofNat 32 :: joinSpace rs

/-- Model of the Python lower() used by the handler (ASCII lowering; the
words of this development are ASCII). -/
def lowerStr (s : String) : String :=
  String.mk (s.data.map Char.toLower)

/-- Model of normalize_text: replace runs of non-kept characters by single
spaces, strip, and lowercase. -/
def normalize_text (s : String) : String :=
  lowerStr (String.mk (joinSpace (runs keepChar s.data)))

/-- Model of tokenize: split the normalized text on whitespace, dropping
empty tokens. -/
def tokenize (text : String) : List String :=
  (runs (fun c => !c.isWhitespace) (normalize_text text).data).map String.mk

/-- Model of the Python strip() applied to the transcript text. -/
def stripChars (cs : List Char) : List Char :=
  ((cs.dropWhile Char.isWhitespace).reverse.dropWhile Char.isWhitespace).reverse

/-- Strip leading and trailing whitespace from a string. -/
def stripStr (s : String) : String :=
  String.mk (stripChars s.data)

/-! ## Handler state and construction -/

/-- DEFAULT_IGNORED_WORDS of the source; the Python set is modelled as a
list used only through membership. -/
def DEFAULT_IGNORED_WORDS : List String :=
  [("uh"), ("umm"), ("hmm"), ("haan"), ("uhh"), ("uhm"), ("erm"), ("ah"),
   ("mm"), ("mmh"), ("mhmm")]

/-- DEFAULT_FORCE_STOP_WORDS of the source. -/
def DEFAULT_FORCE_STOP_WORDS : List String :=
  [("stop"), ("wait"), ("hold"), ("pause"), ("no"), ("halt"), ("end"),
   ("shut up"), ("be quiet")]

/-- The mutable fields of a FillerInterruptHandler instance that the claims
are about (logger and asyncio lock objects are not data). Confidence
thresholds are rationals standing for the Python floats. -/
structure FillerInterruptHandler where
  ignored_words : List String
  force_stop_words : List String
  min_confidence_to_consider : ℚ
  ignore_if_confidence_below : ℚ
  agent_speaking : Bool
deriving DecidableEq, Repr

/-- Python truthiness of the optional iterable arguments of the
constructor: None and the empty iterable are both falsy, so both select the
default word list. -/
def orDefault (arg : Option (List String)) (dflt : List String) : List String :=
  match arg with
  | none => dflt
  | some ws => if ws = [] then dflt else ws

/-- Body of FillerInterruptHandler.__init__: choose the word lists (with
Python or-defaulting), lowercase every word, store the thresholds as given,
and start with agent_speaking false. -/
def initCore (ignored_words force_stop_words : Option (List String))
    (min_confidence_to_consider ignore_if_confidence_below : ℚ) :
    FillerInterruptHandler :=
  { ignored_words :=
      (orDefault ignored_words DEFAULT_IGNORED_WORDS).map lowerStr
    force_stop_words :=
      (orDefault force_stop_words DEFAULT_FORCE_STOP_WORDS).map lowerStr
    min_confidence_to_consider := min_confidence_to_consider
    ignore_if_confidence_below := ignore_if_confidence_below
    agent_speaking := false }

/-- FillerInterruptHandler.__init__ as a fallible constructor: the Except
layer records whether construction can reject its arguments. The source
body performs no validation and no operation that raises on numeric
arguments, so it always succeeds. -/
def init (ignored_words force_stop_words : Option (List String))
    (min_confidence_to_consider ignore_if_confidence_below : ℚ) :
    Except String FillerInterruptHandler :=
  Except.ok (initCore ignored_words force_stop_words
    min_confidence_to_consider ignore_if_confidence_below)

/-! ## Transcript classification -/

/-- One entry of the words argument of handle_transcript: a dict that may
or may not carry a confidence value, or a non-dict entry (skipped by the
isinstance filter of the source). -/
inductive WordEntry where
  | dict (confidence : Option ℚ)
  | nondict
deriving DecidableEq

/-- The per-word confidence list the source extracts: dict entries
contribute their confidence value (default 1.0 when the key is missing),
non-dict entries are skipped. -/
def wordConfidences (words : List WordEntry) : List ℚ :=
  words.filterMap (fun w =>
    match w with
    | WordEntry.dict c => some (c.getD 1)
    | WordEntry.nondict => none)

/-- Overall confidence computed by handle_transcript: the scalar confidence
(or 1.0 when absent), overridden by the arithmetic mean of the extracted
per-word confidences when the words argument is truthy and the extracted
list is non-empty. -/
def avgConf (confidence : Option ℚ) (words : Option (List WordEntry)) : ℚ :=
  let base := confidence.getD 1
  match words with
  | none => base
  | some ws =>
    if ws = [] then base
    else
      let cs := wordConfidences ws
      if cs = [] then base else cs.sum / (cs.length : ℚ)

/-- The three callback categories of the source registry. -/
inductive DispatchTarget where
  | valid_interruption
  | ignored_filler
  | speech_registered
deriving DecidableEq, Repr

/-- One dispatch performed by handle_transcript: which callback category
fires, with the reason, confidence, and (for mixed_tokens) the non-ignored
token list placed in the callback metadata. The open metadata bag is passed
through unmodified by the source and is not modelled. -/
structure Dispatch where
  target : DispatchTarget
  reason : String
  avg_conf : ℚ
  non_ignored : Option (List String)
deriving DecidableEq, Repr

/-- Decision logic of FillerInterruptHandler.handle_transcript: strip the
text (empty text means no dispatch at all), tokenize, compute the average
confidence, snapshot agent_speaking, and while speaking run in order the
low-confidence check, the force-stop check, and the filler-only check;
while quiet, register the speech. Each early return of the source becomes
one Dispatch value. -/
def handle_transcript (h : FillerInterruptHandler) (text : String)
    (confidence : Option ℚ) (words : Option (List WordEntry)) :
    Option Dispatch :=
  let text := stripStr text
  if text = "" then none
  else
    let tokens := tokenize text
    let avg_conf := avgConf confidence words
    if h.agent_speaking then
      if avg_conf < h.ignore_if_confidence_below then
        some { target := DispatchTarget.ignored_filler
               reason := ("low_confidence")
               avg_conf := avg_conf
               non_ignored := none }
      else if tokens.any (fun t => h.force_stop_words.contains t) then
        some { target := DispatchTarget.valid_interruption
               reason := ("force_stop_word")
               avg_conf := avg_conf
               non_ignored := none }
      else
        let non_ignored_tokens := tokens.filter (fun t => !h.ignored_words.contains t)
        if non_ignored_tokens = [] then
          some { target := DispatchTarget.ignored_filler
                 reason := ("filler_only")
                 avg_conf := avg_conf
                 non_ignored := none }
        else
          some { target := DispatchTarget.valid_interruption
                 reason := ("mixed_tokens")
                 avg_conf := avg_conf
                 non_ignored := some non_ignored_tokens }
    else
      some { target := DispatchTarget.speech_registered
             reason := ("agent_quiet")
             avg_conf := avg_conf
             non_ignored := none }

/-! ## Callback registry and dispatch execution

The source keeps three lists of callbacks and, on each decision, runs a
plain Python for-loop over the matching list with no exception handling
around the calls. A callback is modelled by an identifier plus whether the
call raises; the loop is modelled by runCallbacks, which returns the
identifiers of the callbacks that were invoked and whether an exception
escaped the loop (and hence handle_transcript).
-/

/-- One registered callback: an identifier and whether invoking it raises. -/
structure Callback where
  id : Nat
  fails : Bool
deriving DecidableEq, Repr

/-- The for-loop over a callback list: each callback is invoked in order;
if one raises, the loop stops there and the exception escapes. -/
def runCallbacks : List Callback → List Nat × Bool
  | [] => ([], false)
  | cb :: rest =>
    if cb.fails then ([cb.id], true)
    else
      let r := runCallbacks rest
      (cb.id :: r.1, r.2)

/-- A handler instance together with its three callback lists. -/
structure HandlerWithCallbacks where
  core : FillerInterruptHandler
  cbs_valid_interruption : List Callback
  cbs_ignored_filler : List Callback
  cbs_speech_registered : List Callback
deriving DecidableEq

/-- The callback list the source indexes by the string key of the decided
category. -/
def callbacksFor (h : HandlerWithCallbacks) : DispatchTarget → List Callback
  | DispatchTarget.valid_interruption => h.cbs_valid_interruption
  | DispatchTarget.ignored_filler => h.cbs_ignored_filler
  | DispatchTarget.speech_registered => h.cbs_speech_registered

/-- Observable outcome of one handle_transcript call: which callbacks were
invoked, whether an exception escaped the call, and the handler fields
afterwards (the source never writes any handler field inside
handle_transcript, which the definition makes explicit). -/
structure ExecResult where
  invoked : List Nat
  raised : Bool
  final : FillerInterruptHandler
deriving DecidableEq, Repr

/-- handle_transcript including its dispatch loop: decide, then run the
matching callback list. -/
def handle_transcript_exec (h : HandlerWithCallbacks) (text : String)
    (confidence : Option ℚ) (words : Option (List WordEntry)) : ExecResult :=
  match handle_transcript h.core text confidence words with
  | none => { invoked := [], raised := false, final := h.core }
  | some d =>
    let r := runCallbacks (callbacksFor h d.target)
    { invoked := r.1, raised := r.2, final := h.core }

/-! ## Session wiring (multi-user-transcriber.py)

Transcriber.stop_speaking sets only the agent-local speaking flag;
MultiUserTranscriber._handle_interruption looks the agent up by identity
and calls stop_speaking on it. Neither touches the handler object.
-/

/-- The per-participant Transcriber state relevant here: its local speaking
flag. -/
structure Transcriber where
  is_speaking : Bool
deriving DecidableEq, Repr

/-- Model of Transcriber.stop_speaking: clear the local flag and log. -/
def stop_speaking (t : Transcriber) : Transcriber :=
  { t with is_speaking := false }

/-- The state MultiUserTranscriber._handle_interruption can reach for one
participant: the registered agent, if any, and that participant's
interruption handler. -/
structure MultiUserWiring where
  agent : Option Transcriber
  handler : FillerInterruptHandler
deriving DecidableEq, Repr

/-- Model of MultiUserTranscriber._handle_interruption: if an agent is
registered for the identity, call its stop_speaking; otherwise only log. -/
def handle_interruption (w : MultiUserWiring) : MultiUserWiring :=
  match w.agent with
  | some a => { w with agent := some (stop_speaking a) }
  | none => w

/-! ## Cooperative interleaving of handle_transcript with config updates

asyncio runs all these coroutines on one event loop, so a coroutine is
only suspended at an await. handle_transcript awaits exactly once, when it
acquires the lock to snapshot agent_speaking; everything after that —
including the unlocked reads of force_stop_words and ignored_words and the
whole dispatch — runs as one uninterruptible segment, because no await
occurs there. update_ignored_words and update_force_stop_words each swap
their word list inside one locked segment. A program is therefore a list
of atomic actions, and a concurrent execution is an interleaving of the
two programs.
-/

/-- Atomic segments: the pure prefix of handle_transcript before the lock
acquisition, its classification-and-dispatch segment after the lock, and
the locked bodies of the two update coroutines. -/
inductive Action where
  | ht_prep
  | ht_classify
  | upd_ignored (ws : List String)
  | upd_force (ws : List String)
deriving DecidableEq, Repr

/-- Effect of an update action on the shared handler fields (the updates
lowercase their argument, like the source). -/
def applyAction (h : FillerInterruptHandler) : Action → FillerInterruptHandler
  | Action.upd_ignored ws => { h with ignored_words := ws.map lowerStr }
  | Action.upd_force ws => { h with force_stop_words := ws.map lowerStr }
  | _ => h

/-- Shared state of a concurrent execution: the handler fields plus the
decision observed by the classification segment, once it has run. -/
structure TraceState where
  handler : FillerInterruptHandler
  observed : Option (Option Dispatch)
deriving DecidableEq

/-- Execute one atomic action. The classification segment reads the word
sets and dispatches in one step, mirroring that the source performs all
those reads between two awaits. -/
def stepAction (text : String) (confidence : Option ℚ)
    (words : Option (List WordEntry)) (s : TraceState) : Action → TraceState
  | Action.ht_prep => s
  | Action.ht_classify =>
    { s with observed := some (handle_transcript s.handler text confidence words) }
  | a => { s with handler := applyAction s.handler a }

/-- Execute a whole interleaved trace. -/
def runTrace (text : String) (confidence : Option ℚ)
    (words : Option (List WordEntry)) : TraceState → List Action → TraceState
  | s, [] => s
  | s, a :: rest => runTrace text confidence words (stepAction text confidence words s a) rest

/-- The atomic segments of one handle_transcript call, in program order. -/
def ht_program : List Action := [Action.ht_prep, Action.ht_classify]

/-- t is an interleaving of the action lists l and r that preserves the
order within each. -/
inductive Interleaving : List Action → List Action → List Action → Prop where
  | nil : Interleaving [] [] []
  | left (a : Action) {l r t : List Action} :
      Interleaving l r t → Interleaving (a :: l) r (a :: t)
  | right (a : Action) {l r t : List Action} :
      Interleaving l r t → Interleaving l (a :: r) (a :: t)


/-! ## Branch lemmas for handle_transcript -/

/-- While speaking, a non-empty transcript strictly below the confidence
floor is ignored as low_confidence. -/
theorem ht_low_conf (h : FillerInterruptHandler) (text : String)
    (confidence : Option ℚ) (words : Option (List WordEntry))
    (hne : stripStr text ≠ "") (hspeak : h.agent_speaking = true)
    (hlt : avgConf confidence words < h.ignore_if_confidence_below) :
    handle_transcript h text confidence words =
      some { target := DispatchTarget.ignored_filler
             reason := ("low_confidence")
             avg_conf := avgConf confidence words
             non_ignored := none } := by
  simp only [handle_transcript]
  rw [if_neg hne, hspeak, if_pos rfl, if_pos hlt]

/-- While speaking, at or above the confidence floor, a transcript with a
force-stop token fires valid_interruption with reason force_stop_word. -/
theorem ht_force_stop (h : FillerInterruptHandler) (text : String)
    (confidence : Option ℚ) (words : Option (List WordEntry))
    (hne : stripStr text ≠ "") (hspeak : h.agent_speaking = true)
    (hnlt : ¬ avgConf confidence words < h.ignore_if_confidence_below)
    (hany : (tokenize (stripStr text)).any
      (fun t => h.force_stop_words.contains t) = true) :
    handle_transcript h text confidence words =
      some { target := DispatchTarget.valid_interruption
             reason := ("force_stop_word")
             avg_conf := avgConf confidence words
             non_ignored := none } := by
  simp only [handle_transcript]
  rw [if_neg hne, hspeak, if_pos rfl, if_neg hnlt, hany, if_pos rfl]

/-- While speaking, at or above the confidence floor, with no force-stop
token and every token ignored, the transcript is ignored as filler_only. -/
theorem ht_filler_only (h : FillerInterruptHandler) (text : String)
    (confidence : Option ℚ) (words : Option (List WordEntry))
    (hne : stripStr text ≠ "") (hspeak : h.agent_speaking = true)
    (hnlt : ¬ avgConf confidence words < h.ignore_if_confidence_below)
    (hany : (tokenize (stripStr text)).any
      (fun t => h.force_stop_words.contains t) = false)
    (hfil : (tokenize (stripStr text)).filter
      (fun t => !h.ignored_words.contains t) = []) :
    handle_transcript h text confidence words =
      some { target := DispatchTarget.ignored_filler
             reason := ("filler_only")
             avg_conf := avgConf confidence words
             non_ignored := none } := by
  simp only [handle_transcript]
  rw [if_neg hne, hspeak, if_pos rfl, if_neg hnlt, hany,
    if_neg Bool.false_ne_true, if_pos hfil]

/-- While speaking, at or above the confidence floor, with no force-stop
token and at least one non-ignored token, the transcript fires
valid_interruption with reason mixed_tokens and the non-ignored tokens. -/
theorem ht_mixed (h : FillerInterruptHandler) (text : String)
    (confidence : Option ℚ) (words : Option (List WordEntry))
    (hne : stripStr text ≠ "") (hspeak : h.agent_speaking = true)
    (hnlt : ¬ avgConf confidence words < h.ignore_if_confidence_below)
    (hany : (tokenize (stripStr text)).any
      (fun t => h.force_stop_words.contains t) = false)
    (hfil : (tokenize (stripStr text)).filter
      (fun t => !h.ignored_words.contains t) ≠ []) :
    handle_transcript h text confidence words =
      some { target := DispatchTarget.valid_interruption
             reason := ("mixed_tokens")
             avg_conf := avgConf confidence words
             non_ignored := some ((tokenize (stripStr text)).filter
               (fun t => !h.ignored_words.contains t)) } := by
  simp only [handle_transcript]
  rw [if_neg hne, hspeak, if_pos rfl, if_neg hnlt, hany,
    if_neg Bool.false_ne_true, if_neg hfil]

/-! ## Claim theorems -/

/-- C4: while the agent is speaking, for non-empty text at or above the
confidence floor with no force-stop token: if every token is an ignored
word the ignored_filler reaction fires with reason filler_only, and
otherwise the valid_interruption reaction fires with reason mixed_tokens
carrying exactly the list of non-ignored tokens, in order. -/
theorem filler_only_or_mixed_tokens (h : FillerInterruptHandler) (text : String)
    (confidence : Option ℚ) (words : Option (List WordEntry))
    (hspeak : h.agent_speaking = true)
    (hne : stripStr text ≠ "")
    (hconf : ¬ avgConf confidence words < h.ignore_if_confidence_below)
    (hforce : ∀ t ∈ tokenize (stripStr text), t ∉ h.force_stop_words) :
    ((∀ t ∈ tokenize (stripStr text), t ∈ h.ignored_words) →
      handle_transcript h text confidence words =
        some { target := DispatchTarget.ignored_filler
               reason := ("filler_only")
               avg_conf := avgConf confidence words
               non_ignored := none })
    ∧ (¬ (∀ t ∈ tokenize (stripStr text), t ∈ h.ignored_words) →
      handle_transcript h text confidence words =
        some { target := DispatchTarget.valid_interruption
               reason := ("mixed_tokens")
               avg_conf := avgConf confidence words
               non_ignored := some ((tokenize (stripStr text)).filter
                 (fun t => !h.ignored_words.contains t)) }) := by
  have hany : (tokenize (stripStr text)).any
      (fun t => h.force_stop_words.contains t) = false := by
    simp only [List.any_eq_false]
    intro t ht
    simpa using hforce t ht
  constructor
  · intro hall
    have hfil : (tokenize (stripStr text)).filter
        (fun t => !h.ignored_words.contains t) = [] := by
      simp only [List.filter_eq_nil_iff]
      intro t ht
      simpa using hall t ht
    exact ht_filler_only h text confidence words hne hspeak hconf hany hfil
  · intro hnall
    have hfil : (tokenize (stripStr text)).filter
        (fun t => !h.ignored_words.contains t) ≠ [] := by
      intro hcontra
      apply hnall
      intro t ht
      have := List.filter_eq_nil_iff.mp hcontra t ht
      simpa using this
    exact ht_mixed h text confidence words hne hspeak hconf hany hfil

/-- Witness for C4 at concrete inputs: a filler-only transcript is ignored
and a mixed transcript interrupts with its non-filler tokens. -/
theorem filler_only_or_mixed_tokens_witness :
    (((∀ t ∈ tokenize (stripStr ("uh umm")),
        t ∈ ({ initCore none none (Rat.mk' 1 2) (Rat.mk' 2 5) with
          agent_speaking := true } : FillerInterruptHandler).ignored_words) →
      handle_transcript
        { initCore none none (Rat.mk' 1 2) (Rat.mk' 2 5) with agent_speaking := true }
        ("uh umm") none none =
        some { target := DispatchTarget.ignored_filler
               reason := ("filler_only")
               avg_conf := avgConf none none
               non_ignored := none })
    ∧ (¬ (∀ t ∈ tokenize (stripStr ("uh umm")),
        t ∈ ({ initCore none none (Rat.mk' 1 2) (Rat.mk' 2 5) with
          agent_speaking := true } : FillerInterruptHandler).ignored_words) →
      handle_transcript
        { initCore none none (Rat.mk' 1 2) (Rat.mk' 2 5) with agent_speaking := true }
        ("uh umm") none none =
        some { target := DispatchTarget.valid_interruption
               reason := ("mixed_tokens")
               avg_conf := avgConf none none
               non_ignored := some ((tokenize (stripStr ("uh umm"))).filter
                 (fun t => !({ initCore none none (Rat.mk' 1 2) (Rat.mk' 2 5) with
                   agent_speaking := true } : FillerInterruptHandler).ignored_words.contains t)) })) :=
  filler_only_or_mixed_tokens
    { initCore none none (Rat.mk' 1 2) (Rat.mk' 2 5) with agent_speaking := true }
    ("uh umm") none none (by decide) (by decide) (by decide) (by decide)

/-- C5: while the agent is speaking, for non-empty text, average confidence
strictly below the threshold is ignored with reason low_confidence
regardless of tokens, and at exactly the threshold the event is not
ignored as low confidence (the comparison is strict). -/
theorem low_confidence_threshold_exclusive (h : FillerInterruptHandler)
    (text : String) (confidence : Option ℚ) (words : Option (List WordEntry))
    (hspeak : h.agent_speaking = true)
    (hne : stripStr text ≠ "") :
    (avgConf confidence words < h.ignore_if_confidence_below →
      handle_transcript h text confidence words =
        some { target := DispatchTarget.ignored_filler
               reason := ("low_confidence")
               avg_conf := avgConf confidence words
               non_ignored := none })
    ∧ (avgConf confidence words = h.ignore_if_confidence_below →
      ∀ d, handle_transcript h text confidence words = some d →
        d.reason ≠ ("low_confidence")) := by
  constructor
  · intro hlt
    exact ht_low_conf h text confidence words hne hspeak hlt
  · intro heq d hd
    have hnlt : ¬ avgConf confidence words < h.ignore_if_confidence_below := by
      rw [heq]
      exact lt_irrefl _
    by_cases hany : (tokenize (stripStr text)).any
        (fun t => h.force_stop_words.contains t) = true
    · rw [ht_force_stop h text confidence words hne hspeak hnlt hany] at hd
      cases hd
      simp
    · have hany' : (tokenize (stripStr text)).any
          (fun t => h.force_stop_words.contains t) = false := by
        simpa using hany
      by_cases hfil : (tokenize (stripStr text)).filter
          (fun t => !h.ignored_words.contains t) = []
      · rw [ht_filler_only h text confidence words hne hspeak hnlt hany' hfil] at hd
        cases hd
        simp
      · rw [ht_mixed h text confidence words hne hspeak hnlt hany' hfil] at hd
        cases hd
        simp

/-- Witness for C5 at a concrete input with scalar confidence exactly at
the threshold. -/
theorem low_confidence_threshold_exclusive_witness :
    ((avgConf (some (Rat.mk' 2 5)) none <
        ({ initCore none none (Rat.mk' 1 2) (Rat.mk' 2 5) with
          agent_speaking := true } : FillerInterruptHandler).ignore_if_confidence_below →
      handle_transcript
        { initCore none none (Rat.mk' 1 2) (Rat.mk' 2 5) with agent_speaking := true }
        ("uh") (some (Rat.mk' 2 5)) none =
        some { target := DispatchTarget.ignored_filler
               reason := ("low_confidence")
               avg_conf := avgConf (some (Rat.mk' 2 5)) none
               non_ignored := none })
    ∧ (avgConf (some (Rat.mk' 2 5)) none =
        ({ initCore none none (Rat.mk' 1 2) (Rat.mk' 2 5) with
          agent_speaking := true } : FillerInterruptHandler).ignore_if_confidence_below →
      ∀ d, handle_transcript
        { initCore none none (Rat.mk' 1 2) (Rat.mk' 2 5) with agent_speaking := true }
        ("uh") (some (Rat.mk' 2 5)) none = some d →
        d.reason ≠ ("low_confidence"))) :=
  low_confidence_threshold_exclusive
    { initCore none none (Rat.mk' 1 2) (Rat.mk' 2 5) with agent_speaking := true }
    ("uh") (some (Rat.mk' 2 5)) none (by decide) (by decide)

/-- The confidence values the source extracts from a list of dicts that all
carry a confidence key are exactly those values. -/
theorem wordConfidences_map_dict (ws : List ℚ) :
    wordConfidences (ws.map (fun c => WordEntry.dict (some c))) = ws := by
  induction ws with
  | nil => rfl
  | cons c cs ih =>
    simp only [List.map_cons, wordConfidences, List.filterMap_cons] at ih ⊢
    simp [ih]

/-- C6: the average confidence is the arithmetic mean of the per-word
confidence values when the word list is present and non-empty (overriding
the scalar), else the scalar confidence when present, else 1. -/
theorem avg_confidence_computation (confidence : Option ℚ) (ws : List ℚ) :
    (ws ≠ [] →
      avgConf confidence (some (ws.map (fun c => WordEntry.dict (some c)))) =
        ws.sum / (ws.length : ℚ))
    ∧ avgConf confidence none = confidence.getD 1
    ∧ avgConf confidence (some []) = confidence.getD 1
    ∧ avgConf none none = 1 := by
  refine ⟨?_, rfl, rfl, rfl⟩
  intro hne
  have hmap : ws.map (fun c => WordEntry.dict (some c)) ≠ [] := by
    simpa using hne
  simp only [avgConf]
  rw [if_neg hmap, wordConfidences_map_dict, if_neg hne]

/-- Witness for C6: a present non-empty word-confidence list overrides the
scalar confidence by its mean. -/
theorem avg_confidence_computation_witness :
    ([(1 : ℚ)] ≠ [] ∧
      avgConf (some (Rat.mk' 1 2))
        (some ([(1 : ℚ)].map (fun c => WordEntry.dict (some c)))) =
        [(1 : ℚ)].sum / (([(1 : ℚ)].length : ℚ))) :=
  ⟨by decide,
    (avg_confidence_computation (some (Rat.mk' 1 2)) [(1 : ℚ)]).1 (by decide)⟩

/-- C7 counterexample: constructing the handler with
ignore_if_confidence_below = 2, which lies outside the unit interval,
does not fail: construction succeeds and the out-of-range value is stored
unchanged. -/
theorem threshold_validation_counterexample :
    (FillerInterrupt.init none none (Rat.mk' 1 2) 2).isOk = true
    ∧ (initCore none none (Rat.mk' 1 2) 2).ignore_if_confidence_below = 2
    ∧ decide ((2 : ℚ) ≤ 1) = false := by
  refine ⟨rfl, rfl, ?_⟩
  decide

/-- C7 amended: construction never rejects its thresholds; for every pair
of threshold values, inside or outside the unit interval, it succeeds and
the stored thresholds equal the given values (never clamped). -/
theorem threshold_construction_never_fails
    (iw fw : Option (List String)) (m i : ℚ) :
    FillerInterrupt.init iw fw m i = Except.ok (initCore iw fw m i)
    ∧ (initCore iw fw m i).min_confidence_to_consider = m
    ∧ (initCore iw fw m i).ignore_if_confidence_below = i :=
  ⟨rfl, rfl, rfl⟩

/-- An or-defaulted word-list argument is never the empty list when the
default list is non-empty. -/
theorem orDefault_ne_nil (arg : Option (List String)) (dflt : List String)
    (hd : dflt ≠ []) : orDefault arg dflt ≠ [] := by
  cases arg with
  | none => exact hd
  | some ws =>
    by_cases hw : ws = []
    · simpa [orDefault, hw] using hd
    · simp only [orDefault, if_neg hw]
      exact hw

/-- C10: constructing the handler with empty word lists installs the same
vocabularies as constructing it with absent arguments (the builtin
defaults), and for every choice of arguments the installed filler and
force-stop vocabularies are non-empty. -/
theorem empty_word_args_use_defaults (m i : ℚ) (iw fw : Option (List String)) :
    (initCore (some []) (some []) m i).ignored_words =
      (initCore none none m i).ignored_words
    ∧ (initCore (some []) (some []) m i).force_stop_words =
      (initCore none none m i).force_stop_words
    ∧ (initCore iw fw m i).ignored_words.isEmpty = false
    ∧ (initCore iw fw m i).force_stop_words.isEmpty = false := by
  refine ⟨rfl, rfl, ?_, ?_⟩
  · have h := orDefault_ne_nil iw DEFAULT_IGNORED_WORDS (by decide)
    simp only [initCore, List.isEmpty_eq_false, ne_eq, List.map_eq_nil_iff]
    exact h
  · have h := orDefault_ne_nil fw DEFAULT_FORCE_STOP_WORDS (by decide)
    simp only [initCore, List.isEmpty_eq_false, ne_eq, List.map_eq_nil_iff]
    exact h

/-- C1 counterexample: a transcript consisting exactly of the force-stop
word stop, received while the agent is speaking, is dispatched to the
ignored_filler reaction with reason low_confidence — not to
valid_interruption — because its average confidence 1/10 is below the
threshold 2/5 and the low-confidence check runs before the force-stop
check. -/
theorem force_stop_word_low_confidence_counterexample :
    ({ initCore none none (Rat.mk' 1 2) (Rat.mk' 2 5) with
        agent_speaking := true } : FillerInterruptHandler).agent_speaking = true
    ∧ stripStr ("stop") = ("stop")
    ∧ (∃ t ∈ tokenize (stripStr ("stop")),
        t ∈ ({ initCore none none (Rat.mk' 1 2) (Rat.mk' 2 5) with
          agent_speaking := true } : FillerInterruptHandler).force_stop_words)
    ∧ handle_transcript
        { initCore none none (Rat.mk' 1 2) (Rat.mk' 2 5) with agent_speaking := true }
        ("stop") (some (Rat.mk' 1 10)) none =
      some { target := DispatchTarget.ignored_filler
             reason := ("low_confidence")
             avg_conf := Rat.mk' 1 10
             non_ignored := none }
    ∧ decide (DispatchTarget.ignored_filler = DispatchTarget.valid_interruption) = false := by
  decide

/-- C1 amended: while the agent is speaking, for non-empty text whose
average confidence is not below ignore_if_confidence_below, any token in
forceStopWords makes handle_transcript dispatch the valid_interruption
reaction with reason force_stop_word (and no other reaction), even if all
other tokens are ignored words. -/
theorem force_stop_word_priority (h : FillerInterruptHandler) (text : String)
    (confidence : Option ℚ) (words : Option (List WordEntry))
    (hspeak : h.agent_speaking = true)
    (hne : stripStr text ≠ "")
    (hconf : ¬ avgConf confidence words < h.ignore_if_confidence_below)
    (hforce : ∃ t ∈ tokenize (stripStr text), t ∈ h.force_stop_words) :
    handle_transcript h text confidence words =
      some { target := DispatchTarget.valid_interruption
             reason := ("force_stop_word")
             avg_conf := avgConf confidence words
             non_ignored := none } := by
  have hany : (tokenize (stripStr text)).any
      (fun t => h.force_stop_words.contains t) = true := by
    simp only [List.any_eq_true]
    obtain ⟨t, ht, htf⟩ := hforce
    exact ⟨t, ht, by simpa using htf⟩
  exact ht_force_stop h text confidence words hne hspeak hconf hany

/-- Witness for C1 amended: umm stop umm interrupts with reason
force_stop_word although every other token is an ignored word. -/
theorem force_stop_word_priority_witness :
    handle_transcript
      { initCore none none (Rat.mk' 1 2) (Rat.mk' 2 5) with agent_speaking := true }
      ("umm stop umm") none none =
      some { target := DispatchTarget.valid_interruption
             reason := ("force_stop_word")
             avg_conf := avgConf none none
             non_ignored := none } :=
  force_stop_word_priority
    { initCore none none (Rat.mk' 1 2) (Rat.mk' 2 5) with agent_speaking := true }
    ("umm stop umm") none none (by decide) (by decide) (by decide) (by decide)

/-- C2: evaluation at the failing input. The handler is configured exactly
as the session wiring configures it (multi-token phrase shut up in
force_stop_words, confidence floor 7/20) and is speaking. The transcript
umm shut up contains the phrase shut up, yet the dispatched reaction
carries reason mixed_tokens, not force_stop_word: the force-stop check
compares single tokens against the stored phrases, so a multi-token
phrase can never match. -/
theorem multi_token_force_stop_mismatch :
    (("shut up") ∈ ({ initCore
        (some [("uh"), ("umm"), ("hmm"), ("haan"), ("uhh"), ("uhm")])
        (some [("stop"), ("wait"), ("pause"), ("end"), ("terminate"),
               ("shut up"), ("be quiet"), ("halt")])
        (Rat.mk' 1 2) (Rat.mk' 7 20) with
        agent_speaking := true } : FillerInterruptHandler).force_stop_words)
    ∧ List.IsInfix ("shut up").data (normalize_text ("umm shut up")).data
    ∧ handle_transcript
        { initCore
            (some [("uh"), ("umm"), ("hmm"), ("haan"), ("uhh"), ("uhm")])
            (some [("stop"), ("wait"), ("pause"), ("end"), ("terminate"),
                   ("shut up"), ("be quiet"), ("halt")])
            (Rat.mk' 1 2) (Rat.mk' 7 20) with
          agent_speaking := true }
        ("umm shut up") none none =
      some { target := DispatchTarget.valid_interruption
             reason := ("mixed_tokens")
             avg_conf := 1
             non_ignored := some [("shut"), ("up")] }
    ∧ decide (("mixed_tokens" : String) = ("force_stop_word")) = false := by
  refine ⟨by decide, ⟨("umm ").data, [], by decide⟩, by decide, by decide⟩

/-- When a prefix of non-failing callbacks is followed by a failing one,
the source loop invokes exactly the prefix and the failing callback, and
the exception escapes. -/
theorem runCallbacks_append (pre : List Callback) (c : Callback)
    (post : List Callback) (hpre : ∀ cb ∈ pre, cb.fails = false)
    (hc : c.fails = true) :
    runCallbacks (pre ++ c :: post) = (pre.map Callback.id ++ [c.id], true) := by
  induction pre with
  | nil => simp [runCallbacks, hc]
  | cons cb rest ih =>
    have hcb : cb.fails = false := hpre cb (by simp)
    have hrest : ∀ x ∈ rest, x.fails = false := fun x hx => hpre x (by simp [hx])
    simp [runCallbacks, hcb, ih hrest]

/-- C3 counterexample: with two callbacks registered for
valid_interruption, the first raising, a dispatch to that category stops
after the first callback — the second registered callback is never
invoked and the exception escapes handle_transcript (the source loop has
no per-callback exception handling); the handler state is untouched. -/
theorem callback_isolation_counterexample :
    (handle_transcript_exec
      { core := { initCore none none (Rat.mk' 1 2) (Rat.mk' 2 5) with
          agent_speaking := true }
        cbs_valid_interruption := [{ id := 0, fails := true }, { id := 1, fails := false }]
        cbs_ignored_filler := []
        cbs_speech_registered := [] }
      ("hello") none none).raised = true
    ∧ ((handle_transcript_exec
      { core := { initCore none none (Rat.mk' 1 2) (Rat.mk' 2 5) with
          agent_speaking := true }
        cbs_valid_interruption := [{ id := 0, fails := true }, { id := 1, fails := false }]
        cbs_ignored_filler := []
        cbs_speech_registered := [] }
      ("hello") none none).invoked.contains 1) = false
    ∧ (handle_transcript_exec
      { core := { initCore none none (Rat.mk' 1 2) (Rat.mk' 2 5) with
          agent_speaking := true }
        cbs_valid_interruption := [{ id := 0, fails := true }, { id := 1, fails := false }]
        cbs_ignored_filler := []
        cbs_speech_registered := [] }
      ("hello") none none).final.agent_speaking = true := by
  decide

/-- C3 amended: when a dispatch reaches a callback list in which a failing
callback follows non-failing ones, exactly the callbacks up to and
including the failing one are invoked, the callbacks after it are not,
the exception propagates out of handle_transcript, and every handler
field — agent_speaking included — is left unchanged, so the handler can
still process subsequent transcript events. -/
theorem callback_fault_propagates (h : HandlerWithCallbacks) (text : String)
    (confidence : Option ℚ) (words : Option (List WordEntry)) (d : Dispatch)
    (hd : handle_transcript h.core text confidence words = some d)
    (pre post : List Callback) (c : Callback)
    (hsplit : callbacksFor h d.target = pre ++ c :: post)
    (hpre : ∀ cb ∈ pre, cb.fails = false) (hc : c.fails = true) :
    handle_transcript_exec h text confidence words =
      { invoked := pre.map Callback.id ++ [c.id]
        raised := true
        final := h.core } := by
  simp only [handle_transcript_exec, hd, hsplit,
    runCallbacks_append pre c post hpre hc]

/-- Witness for C3 amended at a concrete registry: one healthy callback,
then a failing one, then another healthy one. -/
theorem callback_fault_propagates_witness :
    handle_transcript_exec
      { core := { initCore none none (Rat.mk' 1 2) (Rat.mk' 2 5) with
          agent_speaking := true }
        cbs_valid_interruption := [{ id := 5, fails := false },
          { id := 7, fails := true }, { id := 9, fails := false }]
        cbs_ignored_filler := []
        cbs_speech_registered := [] }
      ("hello") none none =
      { invoked := [{ id := 5, fails := false }].map Callback.id ++ [7]
        raised := true
        final := { initCore none none (Rat.mk' 1 2) (Rat.mk' 2 5) with
          agent_speaking := true } } :=
  callback_fault_propagates
    { core := { initCore none none (Rat.mk' 1 2) (Rat.mk' 2 5) with
        agent_speaking := true }
      cbs_valid_interruption := [{ id := 5, fails := false },
        { id := 7, fails := true }, { id := 9, fails := false }]
      cbs_ignored_filler := []
      cbs_speech_registered := [] }
    ("hello") none none
    { target := DispatchTarget.valid_interruption
      reason := ("mixed_tokens")
      avg_conf := 1
      non_ignored := some [("hello")] }
    (by decide)
    [{ id := 5, fails := false }] [{ id := 9, fails := false }]
    { id := 7, fails := true }
    (by decide) (by decide) (by decide)

/-- C8: evaluation at the failing input. A valid interruption is handled
for a registered, speaking participant: the interruption reaction
completes (the agent-local TTS flag is cleared), yet the handler's
agent_speaking flag is still true afterwards — neither stop_speaking nor
handle_interruption ever writes it, so subsequent transcripts are still
evaluated against a speaking agent. -/
theorem interruption_reaction_keeps_handler_speaking :
    (handle_interruption
      { agent := some { is_speaking := true }
        handler := { initCore none none (Rat.mk' 1 2) (Rat.mk' 2 5) with
          agent_speaking := true } }).handler.agent_speaking = true
    ∧ (handle_interruption
      { agent := some { is_speaking := true }
        handler := { initCore none none (Rat.mk' 1 2) (Rat.mk' 2 5) with
          agent_speaking := true } }).agent = some { is_speaking := false } := by
  decide

/-- C9: for every interleaving of one handle_transcript call with one
configuration-update call (update_ignored_words or
update_force_stop_words), the observed classification is the one computed
from the entire pre-update handler or from the entire post-update
handler — never from a mix. This holds because, on the single asyncio
event loop, everything after the lock acquisition in handle_transcript
runs without an await, so both word-set reads happen in one atomic
segment. -/
theorem config_update_atomic (h : FillerInterruptHandler) (text : String)
    (confidence : Option ℚ) (words : Option (List WordEntry))
    (wsNew : List String) (u : Action) (trace : List Action)
    (hu : u = Action.upd_ignored wsNew ∨ u = Action.upd_force wsNew)
    (hint : Interleaving ht_program [u] trace) :
    (runTrace text confidence words { handler := h, observed := none } trace).observed =
      some (handle_transcript h text confidence words) ∨
    (runTrace text confidence words { handler := h, observed := none } trace).observed =
      some (handle_transcript (applyAction h u) text confidence words) := by
  simp only [ht_program] at hint
  rcases hu with hu | hu <;> subst hu
  all_goals
    cases hint with
    | right a h1 =>
      cases h1 with
      | left a2 h2 =>
        cases h2 with
        | left a3 h3 =>
          cases h3 with
          | nil => exact Or.inr rfl
    | left a h1 =>
      cases h1 with
      | right a2 h2 =>
        cases h2 with
        | left a3 h3 =>
          cases h3 with
          | nil => exact Or.inr rfl
      | left a2 h2 =>
        cases h2 with
        | right a3 h3 =>
          cases h3 with
          | nil => exact Or.inl rfl

/-- Witness for C9: the update runs entirely after the classification
segment, so the observed decision is the pre-update one. -/
theorem config_update_atomic_witness :
    (runTrace ("hello") none none
        { handler := initCore none none (Rat.mk' 1 2) (Rat.mk' 2 5), observed := none }
        [Action.ht_prep, Action.ht_classify, Action.upd_ignored [("hello")]]).observed =
      some (handle_transcript (initCore none none (Rat.mk' 1 2) (Rat.mk' 2 5))
        ("hello") none none) ∨
    (runTrace ("hello") none none
        { handler := initCore none none (Rat.mk' 1 2) (Rat.mk' 2 5), observed := none }
        [Action.ht_prep, Action.ht_classify, Action.upd_ignored [("hello")]]).observed =
      some (handle_transcript
        (applyAction (initCore none none (Rat.mk' 1 2) (Rat.mk' 2 5))
          (Action.upd_ignored [("hello")]))
        ("hello") none none) :=
  config_update_atomic (initCore none none (Rat.mk' 1 2) (Rat.mk' 2 5))
    ("hello") none none [("hello")] (Action.upd_ignored [("hello")])
    [Action.ht_prep, Action.ht_classify, Action.upd_ignored [("hello")]]
    (Or.inl rfl)
    (Interleaving.left Action.ht_prep
      (Interleaving.left Action.ht_classify
        (Interleaving.right (Action.upd_ignored [("hello")]) Interleaving.nil)))

end FillerInterrupt
